import Mathlib

/-!
Shallow embedding of the p-load utility (src/p-load.c): the action pipeline
and device-session orchestrator.  Pure Lean translations of the C functions,
with the external ploader library calls modelled as an opaque environment
record, global mutable state passed explicitly, and printed messages and
device operations recorded in traces.
-/

/-! ## Exit codes -/

/-- Exit codes.  In the C source `ExitCode` is an `int`. -/
abbrev ExitCode := Nat

def EXIT_SUCCESS : ExitCode := 0

/-- Modelled from the spec: the constant `ERROR_BAD_ARGS` is declared in a
header that is not under src/; the spec only requires the three error codes
to be distinct and nonzero, so we fix arbitrary distinct values. -/
def ERROR_BAD_ARGS : ExitCode := 1

/-- Modelled from the spec: the constant `ERROR_OPERATION_FAILED` is declared
in a header that is not under src/. -/
def ERROR_OPERATION_FAILED : ExitCode := 2

/-- Modelled from the spec: the constant `ERROR_BOOTLOADER_NOT_FOUND` is
declared in a header that is not under src/. -/
def ERROR_BOOTLOADER_NOT_FOUND : ExitCode := 3

/-! ## Device-session data model -/

/-- A discovered but unopened device (one entry of a `ploaderList`). -/
structure Device where
  serialNumber : String
  name : String
deriving DecidableEq

/-- An opened device handle (`ploaderHandle`); carries the identity of the
device it is a session to. -/
structure Handle where
  device : Device
deriving DecidableEq

/-- Device information returned by `ploaderCreateInfo` (`ploaderInfo`). -/
structure PloaderInfo where
  name : String
  serialNumber : String
  appAddress : Nat
  appSize : Nat
  eepromSize : Nat
  eepromAddressHexFile : Nat
deriving DecidableEq

/-- USB identity returned by `ploaderListCreateInfo` for one list entry. -/
structure UsbId where
  name : String
  serialNumber : String
deriving DecidableEq

/-- The global mutable state of p-load.c that the device-session functions
touch: `desiredSerialNumber`, `bootloaderList`, `bootloaderHandle`. -/
structure GState where
  desiredSerialNumber : Option String := none
  bootloaderList : Option (List Device) := none
  bootloaderHandle : Option Handle := none
deriving DecidableEq

/-- Results of the opaque external ploader library calls.  Each field gives
the outcome the library would produce for one kind of call; `files` models
the file system (name to contents) used by the HEX-file reading code. -/
structure Env where
  listCreate : Except Nat (List Device)
  filterBySerialNumber : String → List Device → Except Unit (List Device)
  openFromList : List Device → Nat → Except Unit Handle
  createInfo : Handle → Except Unit PloaderInfo
  checkApplication : Handle → Except Unit Bool
  listCreateInfo : List Device → Nat → Except Unit UsbId
  ploaderWriteFlash : Handle → List Nat → Except Unit Unit
  ploaderWriteEeprom : Handle → List Nat → Except Unit Unit
  files : String → Option (List Nat)

/-! ## Messages and device-operation traces -/

/-- Severity of a user-visible line: `info(...)`, `error(...)`, a
`fprintf(stderr, "Warning: ...")`, or a plain `printf` row on stdout. -/
inductive Severity where
  | info
  | err
  | warning
  | stdout
deriving DecidableEq

/-- The distinct user-visible messages the embedded functions emit. -/
inductive MsgText where
  | noBootloaderFound (serial : Option String)
  | bootloaderName (name : String)
  | serialNumberLine (serial : String)
  | multipleBootloaders
  | unableToConnect
  | unableToCheckApplication
  | listRow (serial name status : String)
deriving DecidableEq

/-- One emitted message: a severity together with its text. -/
structure Msg where
  severity : Severity
  text : MsgText
deriving DecidableEq

/-- Device / file operations performed against the outside world, recorded
in order. -/
inductive BEvent where
  | listCreate
  | filterList
  | openDev (index : Nat)
  | closeHandle
  | fileOpen (name : String)
  | writeFlashDev (buffer : List Nat)
  | writeEepromDev (buffer : List Nat)
  | restartDevice
deriving DecidableEq

/-! ## Device-session functions (translated from src/p-load.c) -/

/-- `bootloaderListRequire` (p-load.c lines 95-117): if a list is cached,
succeed at once; otherwise create the list (`ploaderListCreate`), returning
the raw `PLOADER_RESULT` on failure, and if a serial filter is set, filter
the list (`ploaderListFilterBySerialNumber`), mapping a filter failure to
`ERROR_OPERATION_FAILED` with the list freed.  On success the returned list
is the cached one. -/
def bootloaderListRequire (env : Env) (st : GState) :
    GState × List BEvent × Except ExitCode (List Device) :=
  match st.bootloaderList with
  | some lst => (st, [], .ok lst)
  | none =>
    match env.listCreate with
    | .error r => (st, [.listCreate], .error r)
    | .ok lst =>
      match st.desiredSerialNumber with
      | none => ({st with bootloaderList := some lst}, [.listCreate], .ok lst)
      | some sn =>
        match env.filterBySerialNumber sn lst with
        | .error _ =>
          ({st with bootloaderList := none}, [.listCreate, .filterList],
            .error ERROR_OPERATION_FAILED)
        | .ok lst2 =>
          ({st with bootloaderList := some lst2}, [.listCreate, .filterList],
            .ok lst2)

/-- `bootloaderNotFoundError` (p-load.c lines 119-130): an error-severity
not-found message, mentioning the serial filter when one is set. -/
def bootloaderNotFoundError (st : GState) : List Msg × ExitCode :=
  ([⟨.err, .noBootloaderFound st.desiredSerialNumber⟩], ERROR_BOOTLOADER_NOT_FOUND)

/-- `bootloaderNotFoundInfo` (p-load.c lines 132-143): same text as
`bootloaderNotFoundError` but at informational severity. -/
def bootloaderNotFoundInfo (st : GState) : List Msg × ExitCode :=
  ([⟨.info, .noBootloaderFound st.desiredSerialNumber⟩], ERROR_BOOTLOADER_NOT_FOUND)

/-- `printBootloaderInfo` (p-load.c lines 145-156): query the open handle's
info and print name and serial number at informational severity; on query
failure print nothing and return `ERROR_OPERATION_FAILED`. -/
def printBootloaderInfo (env : Env) (h : Handle) : List Msg × ExitCode :=
  match env.createInfo h with
  | .error _ => ([], ERROR_OPERATION_FAILED)
  | .ok pin =>
    ([⟨.info, .bootloaderName pin.name⟩, ⟨.info, .serialNumberLine pin.serialNumber⟩],
      EXIT_SUCCESS)

/-- `bootloaderHandleRequire` (p-load.c lines 158-194): if a handle is
cached, succeed; otherwise require the list, then select by size
(0 → not-found error, more than 1 → operation failed), open entry 0, cache
the handle, and print its identity (the `printBootloaderInfo` return value
is discarded by the C code). -/
def bootloaderHandleRequire (env : Env) (st : GState) :
    GState × List Msg × List BEvent × ExitCode :=
  match st.bootloaderHandle with
  | some _ => (st, [], [], EXIT_SUCCESS)
  | none =>
    match bootloaderListRequire env st with
    | (st1, ev1, .error c) => (st1, [], ev1, c)
    | (st1, ev1, .ok lst) =>
      if lst.length = 0 then
        let (msgs, code) := bootloaderNotFoundError st1
        (st1, msgs, ev1, code)
      else if lst.length > 1 then
        (st1, [⟨.err, .multipleBootloaders⟩], ev1, ERROR_OPERATION_FAILED)
      else
        match env.openFromList lst 0 with
        | .error _ => (st1, [], ev1 ++ [.openDev 0], ERROR_OPERATION_FAILED)
        | .ok h =>
          let st2 := {st1 with bootloaderHandle := some h}
          let (msgs, _) := printBootloaderInfo env h
          (st2, msgs, ev1 ++ [.openDev 0], EXIT_SUCCESS)

/-! ## The wait loop (`waitForBootloaderIfNeeded`, p-load.c lines 196-227)

Wall-clock time is modelled in milliseconds.  `time(NULL)` has one-second
granularity, so a reading taken at millisecond `t` is `t / 1000`.  The C
condition `difftime(time(NULL), waitStartTime) > 10` on integer-second
`time_t` values is exactly `clock i / 1000 > t0 / 1000 + 10` for a
monotone clock.  `clock i` is the wall-clock millisecond at which iteration
`i` evaluates its checks; the `usleep(100000)` between iterations means
any realizable schedule satisfies `clock (i+1) ≥ clock i + 100`.
`discover i` is the outcome of iteration `i`'s fresh `bootloaderListRequire`
(the loop frees and nulls the cached list before sleeping, so each
iteration discovers afresh).  `fuel` bounds the number of iterations we
unfold; `none` means the loop was still running after `fuel` iterations. -/

def waitForBootloaderLoop (t0 : Nat) (clock : Nat → Nat)
    (discover : Nat → Except ExitCode (List Device)) :
    Nat → Nat → Option (ExitCode × Nat)
  | 0, _ => none
  | fuel + 1, i =>
    match discover i with
    | .error c => some (c, clock i)
    | .ok lst =>
      if 0 < lst.length then some (EXIT_SUCCESS, clock i)
      else if clock i / 1000 > t0 / 1000 + 10 then
        some (ERROR_BOOTLOADER_NOT_FOUND, clock i)
      else waitForBootloaderLoop t0 clock discover fuel (i + 1)

/-! ## The list action (p-load.c lines 229-297) -/

/-- `getStatus` (p-load.c lines 231-253): open the list entry and check its
application; on either failure print a warning and report `"?"`. -/
def getStatus (env : Env) (lst : List Device) (i : Nat) : String × List Msg :=
  match env.openFromList lst i with
  | .error _ => ("?", [⟨.warning, .unableToConnect⟩])
  | .ok h =>
    match env.checkApplication h with
    | .error _ => ("?", [⟨.warning, .unableToCheckApplication⟩])
    | .ok true => ("App present", [])
    | .ok false => ("No app present", [])

/-- The `for` loop of `listConnectedBootloaders` (p-load.c lines 273-287):
for each index, query the USB identity (aborting the whole action with
`ERROR_OPERATION_FAILED` on failure), get the status string, and print one
row.  The second argument is the number of entries left to process. -/
def listBootloadersLoop (env : Env) (lst : List Device) :
    Nat → Nat → List Msg × ExitCode
  | _, 0 => ([], EXIT_SUCCESS)
  | i, n + 1 =>
    match env.listCreateInfo lst i with
    | .error _ => ([], ERROR_OPERATION_FAILED)
    | .ok u =>
      let s := getStatus env lst i
      let rest := listBootloadersLoop env lst (i + 1) n
      (s.2 ++ [⟨.stdout, .listRow u.serialNumber u.name s.1⟩] ++ rest.1, rest.2)

/-- `listConnectedBootloaders` (p-load.c lines 257-297): close any cached
handle first, require the (possibly cached) list, print one row per entry,
and treat an empty list as not-found at informational severity. -/
def listConnectedBootloaders (env : Env) (st : GState) :
    GState × List Msg × List BEvent × ExitCode :=
  let st0 := {st with bootloaderHandle := none}
  match bootloaderListRequire env st0 with
  | (st1, ev1, .error _) =>
    (st1, [], BEvent.closeHandle :: ev1, ERROR_OPERATION_FAILED)
  | (st1, ev1, .ok lst) =>
    let r := listBootloadersLoop env lst 0 lst.length
    if r.2 ≠ EXIT_SUCCESS then
      (st1, r.1, BEvent.closeHandle :: ev1, r.2)
    else if lst.length = 0 then
      let n := bootloaderNotFoundInfo st1
      (st1, r.1 ++ n.1, BEvent.closeHandle :: ev1, n.2)
    else
      (st1, r.1, BEvent.closeHandle :: ev1, EXIT_SUCCESS)

/-! ## HEX-file input actions (p-load.c lines 312-522) -/

/-- The private state of a write or erase action (`HexFileInput`): an
optional file name and the two optional image buffers. -/
structure HexFileInput where
  fileName : Option String := none
  flash : Option (List Nat) := none
  eeprom : Option (List Nat) := none
deriving DecidableEq

/-- `clearHexFileInput` (p-load.c lines 420-454), the prepare phase of the
erase actions: require an open handle, query its reported `appSize` and
`eepromSize`, and fill both buffers with `0xFF` at exactly those lengths.
No file is opened.  The `none` branch after a successful
`bootloaderHandleRequire` is unreachable (the C code reads the global
`bootloaderHandle`, which success guarantees to be set). -/
def clearHexFileInput (env : Env) (st : GState) (data : HexFileInput) :
    GState × List Msg × List BEvent × Except ExitCode HexFileInput :=
  match bootloaderHandleRequire env st with
  | (st1, msgs1, ev1, code) =>
    if code ≠ EXIT_SUCCESS then (st1, msgs1, ev1, .error code)
    else
      match st1.bootloaderHandle with
      | none => (st1, msgs1, ev1, .error ERROR_OPERATION_FAILED)
      | some h =>
        match env.createInfo h with
        | .error _ => (st1, msgs1, ev1, .error ERROR_OPERATION_FAILED)
        | .ok pin =>
          (st1, msgs1, ev1, .ok
            { data with
              flash := some (List.replicate pin.appSize 255),
              eeprom := some (List.replicate pin.eepromSize 255) })

/-- `writeFlashAndEeprom` (p-load.c lines 456-483), the execute phase shared
by the write-both and erase-both actions: require an open handle, send the
flash buffer (`ploaderWriteFlash`), then send the EEPROM buffer
(`ploaderWriteEeprom`).  The C code asserts both buffers are non-null; the
missing-buffer branch models a violated assertion. -/
def writeFlashAndEeprom (env : Env) (st : GState) (data : HexFileInput) :
    GState × List Msg × List BEvent × ExitCode :=
  match data.flash, data.eeprom with
  | some fl, some ee =>
    match bootloaderHandleRequire env st with
    | (st1, msgs1, ev1, code) =>
      if code ≠ EXIT_SUCCESS then (st1, msgs1, ev1, code)
      else
        match st1.bootloaderHandle with
        | none => (st1, msgs1, ev1, ERROR_OPERATION_FAILED)
        | some h =>
          match env.ploaderWriteFlash h fl with
          | .error _ =>
            (st1, msgs1, ev1 ++ [.writeFlashDev fl], ERROR_OPERATION_FAILED)
          | .ok _ =>
            match env.ploaderWriteEeprom h ee with
            | .error _ =>
              (st1, msgs1, ev1 ++ [.writeFlashDev fl, .writeEepromDev ee],
                ERROR_OPERATION_FAILED)
            | .ok _ =>
              (st1, msgs1, ev1 ++ [.writeFlashDev fl, .writeEepromDev ee],
                EXIT_SUCCESS)
  | _, _ => (st, [], [], ERROR_OPERATION_FAILED)

/-- `writeFlash` (p-load.c lines 485-502): send only the flash buffer. -/
def writeFlash (env : Env) (st : GState) (data : HexFileInput) :
    GState × List Msg × List BEvent × ExitCode :=
  match data.flash with
  | some fl =>
    match bootloaderHandleRequire env st with
    | (st1, msgs1, ev1, code) =>
      if code ≠ EXIT_SUCCESS then (st1, msgs1, ev1, code)
      else
        match st1.bootloaderHandle with
        | none => (st1, msgs1, ev1, ERROR_OPERATION_FAILED)
        | some h =>
          match env.ploaderWriteFlash h fl with
          | .error _ =>
            (st1, msgs1, ev1 ++ [.writeFlashDev fl], ERROR_OPERATION_FAILED)
          | .ok _ => (st1, msgs1, ev1 ++ [.writeFlashDev fl], EXIT_SUCCESS)
  | none => (st, [], [], ERROR_OPERATION_FAILED)

/-- `writeEeprom` (p-load.c lines 504-522): send only the EEPROM buffer. -/
def writeEeprom (env : Env) (st : GState) (data : HexFileInput) :
    GState × List Msg × List BEvent × ExitCode :=
  match data.eeprom with
  | some ee =>
    match bootloaderHandleRequire env st with
    | (st1, msgs1, ev1, code) =>
      if code ≠ EXIT_SUCCESS then (st1, msgs1, ev1, code)
      else
        match st1.bootloaderHandle with
        | none => (st1, msgs1, ev1, ERROR_OPERATION_FAILED)
        | some h =>
          match env.ploaderWriteEeprom h ee with
          | .error _ =>
            (st1, msgs1, ev1 ++ [.writeEepromDev ee], ERROR_OPERATION_FAILED)
          | .ok _ => (st1, msgs1, ev1 ++ [.writeEepromDev ee], EXIT_SUCCESS)
  | none => (st, [], [], ERROR_OPERATION_FAILED)

/-! ## Action descriptors (p-load.c lines 684-759) -/

/-- Names of the allocate-phase functions wired into action descriptors. -/
inductive AllocFn where
  | allocateHexFileInput
  | allocateHexFileOutput
deriving DecidableEq

/-- Names of the parse-phase functions wired into action descriptors. -/
inductive ParseFn where
  | parseHexFileInputArg
  | parseHexFileOutputArg
deriving DecidableEq

/-- Names of the prepare-phase functions wired into action descriptors. -/
inductive PrepFn where
  | readHexFile
  | clearHexFileInput
  | prepareHexFileOutput
deriving DecidableEq

/-- Names of the execute-phase functions wired into action descriptors. -/
inductive ExecFn where
  | writeFlashAndEeprom
  | writeFlash
  | writeEeprom
  | readFlashAndEeprom
  | readFlash
  | readEeprom
  | listConnectedBootloaders
  | listSupportedBootloaders
deriving DecidableEq

/-- Names of the release functions wired into action descriptors. -/
inductive FreeFn where
  | freeHexFileInput
  | freeHexFileOutput
deriving DecidableEq

/-- `actionType` (actions.h): a bundle of optional phase functions.  Absent
phases are `none`, exactly as the C struct leaves them null. -/
structure ActionType where
  allocate : Option AllocFn := none
  parse : Option ParseFn := none
  prepare : Option PrepFn := none
  execute : Option ExecFn := none
  freeFunc : Option FreeFn := none
deriving DecidableEq

def actList : ActionType :=
  { execute := some .listConnectedBootloaders }

def actListSupported : ActionType :=
  { execute := some .listSupportedBootloaders }

def actWriteFlashAndEeprom : ActionType :=
  { allocate := some .allocateHexFileInput
    parse := some .parseHexFileInputArg
    prepare := some .readHexFile
    execute := some .writeFlashAndEeprom
    freeFunc := some .freeHexFileInput }

def actWriteFlash : ActionType :=
  { allocate := some .allocateHexFileInput
    parse := some .parseHexFileInputArg
    prepare := some .readHexFile
    execute := some .writeFlash
    freeFunc := some .freeHexFileInput }

def actWriteEeprom : ActionType :=
  { allocate := some .allocateHexFileInput
    parse := some .parseHexFileInputArg
    prepare := some .readHexFile
    execute := some .writeEeprom
    freeFunc := some .freeHexFileInput }

def actEraseFlashAndEeprom : ActionType :=
  { allocate := some .allocateHexFileInput
    prepare := some .clearHexFileInput
    execute := some .writeFlashAndEeprom
    freeFunc := some .freeHexFileInput }

def actEraseFlash : ActionType :=
  { allocate := some .allocateHexFileInput
    prepare := some .clearHexFileInput
    execute := some .writeFlash
    freeFunc := some .freeHexFileInput }

def actEraseEeprom : ActionType :=
  { allocate := some .allocateHexFileInput
    prepare := some .clearHexFileInput
    execute := some .writeEeprom
    freeFunc := some .freeHexFileInput }

def actReadFlashAndEeprom : ActionType :=
  { allocate := some .allocateHexFileOutput
    parse := some .parseHexFileOutputArg
    prepare := some .prepareHexFileOutput
    execute := some .readFlashAndEeprom
    freeFunc := some .freeHexFileOutput }

def actReadFlash : ActionType :=
  { allocate := some .allocateHexFileOutput
    parse := some .parseHexFileOutputArg
    prepare := some .prepareHexFileOutput
    execute := some .readFlash
    freeFunc := some .freeHexFileOutput }

def actReadEeprom : ActionType :=
  { allocate := some .allocateHexFileOutput
    parse := some .parseHexFileOutputArg
    prepare := some .prepareHexFileOutput
    execute := some .readEeprom
    freeFunc := some .freeHexFileOutput }

/-! ## Argument parsing (`parseArgs`, p-load.c lines 761-859) -/

/-- One queued pipeline entry: its descriptor, and the filename its parse
phase consumed from the command line (when the descriptor has one). -/
structure ParsedAction where
  act : ActionType
  fileName : Option String := none
deriving DecidableEq

/-- The parser-visible global state: the serial filter, the two flags, and
the queued actions in insertion order. -/
structure ParseState where
  desiredSerialNumber : Option String := none
  waitForBootloaderFlag : Bool := false
  restartBootloaderFlag : Bool := false
  actions : List ParsedAction := []
deriving DecidableEq

/-- `parseArgs` (p-load.c lines 761-859), processing the remaining tokens
against the current state.  Queueing an action (`actionsAdd`) invokes its
allocate phase (modelled as always succeeding, since the only failure is
`malloc` exhaustion) and its parse phase, which consumes the following
token as a filename and fails with `ERROR_BAD_ARGS` when it is missing.
The parser performs no device operation whatsoever. -/
def parseArgsFrom : List String → ParseState → Except ExitCode ParseState
  | [], st => .ok st
  | arg :: rest, st =>
    if arg = "-d" then
      match st.desiredSerialNumber with
      | some _ => .error ERROR_BAD_ARGS
      | none =>
        match rest with
        | [] => .error ERROR_BAD_ARGS
        | s :: rest2 =>
          parseArgsFrom rest2 {st with desiredSerialNumber := some s}
    else if arg = "--list" then
      parseArgsFrom rest {st with actions := st.actions ++ [⟨actList, none⟩]}
    else if arg = "--list-supported" then
      parseArgsFrom rest {st with actions := st.actions ++ [⟨actListSupported, none⟩]}
    else if arg = "--wait" then
      parseArgsFrom rest {st with waitForBootloaderFlag := true}
    else if arg = "-w" then
      match rest with
      | [] => .error ERROR_BAD_ARGS
      | f :: rest2 =>
        parseArgsFrom rest2
          {st with actions := st.actions ++ [⟨actWriteFlashAndEeprom, some f⟩],
                   restartBootloaderFlag := true}
    else if arg = "--write" then
      match rest with
      | [] => .error ERROR_BAD_ARGS
      | f :: rest2 =>
        parseArgsFrom rest2
          {st with actions := st.actions ++ [⟨actWriteFlashAndEeprom, some f⟩]}
    else if arg = "--write-flash" then
      match rest with
      | [] => .error ERROR_BAD_ARGS
      | f :: rest2 =>
        parseArgsFrom rest2
          {st with actions := st.actions ++ [⟨actWriteFlash, some f⟩]}
    else if arg = "--write-eeprom" then
      match rest with
      | [] => .error ERROR_BAD_ARGS
      | f :: rest2 =>
        parseArgsFrom rest2
          {st with actions := st.actions ++ [⟨actWriteEeprom, some f⟩]}
    else if arg = "--erase" then
      parseArgsFrom rest {st with actions := st.actions ++ [⟨actEraseFlashAndEeprom, none⟩]}
    else if arg = "--erase-flash" then
      parseArgsFrom rest {st with actions := st.actions ++ [⟨actEraseFlash, none⟩]}
    else if arg = "--erase-eeprom" then
      parseArgsFrom rest {st with actions := st.actions ++ [⟨actEraseEeprom, none⟩]}
    else if arg = "--read" then
      match rest with
      | [] => .error ERROR_BAD_ARGS
      | f :: rest2 =>
        parseArgsFrom rest2
          {st with actions := st.actions ++ [⟨actReadFlashAndEeprom, some f⟩]}
    else if arg = "--read-flash" then
      match rest with
      | [] => .error ERROR_BAD_ARGS
      | f :: rest2 =>
        parseArgsFrom rest2
          {st with actions := st.actions ++ [⟨actReadFlash, some f⟩]}
    else if arg = "--read-eeprom" then
      match rest with
      | [] => .error ERROR_BAD_ARGS
      | f :: rest2 =>
        parseArgsFrom rest2
          {st with actions := st.actions ++ [⟨actReadEeprom, some f⟩]}
    else if arg = "--restart" then
      parseArgsFrom rest {st with restartBootloaderFlag := true}
    else
      .error ERROR_BAD_ARGS

/-- `parseArgs` starting from the initial (all-default) state. -/
def parseArgs (args : List String) : Except ExitCode ParseState :=
  parseArgsFrom args {}

/-! ## Pipeline passes and the orchestrator (`run` / `main`)

The pipeline pass implementations (`actionsPrepare`, `actionsExecute`,
`actionsFree` of actions.c) are not under src/; only their declarations and
callers are.  They are modelled from the spec below.  For the orchestrator
theorems each queued action is abstracted to the exit codes its prepare and
execute phases would return. -/

/-- A queued action abstracted to its phase outcomes: the exit code its
prepare phase returns and the exit code its execute phase returns (an
absent phase is a no-op, outcome `EXIT_SUCCESS`). -/
structure QueuedAction where
  prepare : ExitCode := EXIT_SUCCESS
  execute : ExitCode := EXIT_SUCCESS
deriving DecidableEq

/-- Events of one whole program run: phase invocations on queued actions
(by queue index), a device-discovery attempt by the wait loop, the device
restart command, and the release of an action's private state. -/
inductive REvent where
  | prepareRun (i : Nat)
  | executeRun (i : Nat)
  | discovery
  | restartCmd
  | release (i : Nat)
deriving DecidableEq

/-- Modelled from the spec: `runPreparePass` of actions.c (not under src/)
invokes the prepare phase in insertion order for every queued action and
stops at, and returns, the first failure.  `i` is the queue index of the
first action of `as`; the event list records the prepare invocations. -/
def actionsPrepareFrom : List QueuedAction → Nat → ExitCode × List REvent
  | [], _ => (EXIT_SUCCESS, [])
  | a :: rest, i =>
    if a.prepare ≠ EXIT_SUCCESS then (a.prepare, [.prepareRun i])
    else
      let r := actionsPrepareFrom rest (i + 1)
      (r.1, .prepareRun i :: r.2)

/-- `actionsPrepare`: the prepare pass over the whole queue. -/
def actionsPrepare (as : List QueuedAction) : ExitCode × List REvent :=
  actionsPrepareFrom as 0

/-- Modelled from the spec: `runExecutePass` of actions.c (not under src/)
invokes the execute phase in insertion order and stops at the first
failure. -/
def actionsExecuteFrom : List QueuedAction → Nat → ExitCode × List REvent
  | [], _ => (EXIT_SUCCESS, [])
  | a :: rest, i =>
    if a.execute ≠ EXIT_SUCCESS then (a.execute, [.executeRun i])
    else
      let r := actionsExecuteFrom rest (i + 1)
      (r.1, .executeRun i :: r.2)

/-- `actionsExecute`: the execute pass over the whole queue. -/
def actionsExecute (as : List QueuedAction) : ExitCode × List REvent :=
  actionsExecuteFrom as 0

/-- Modelled from the spec: `actionsFree` of actions.c (not under src/)
releases every queued action's private state regardless of how far
execution proceeded. -/
def actionsFree (n : Nat) : List REvent :=
  (List.range n).map .release

/-- `run` (p-load.c lines 861-881) with each step abstracted to its
outcome: `parseCode` is what `parseArgs` returned (the queue it built is
`as`), `waitCode` what the wait loop would return when `waitFlag` is set
(performing at least one discovery), and the final step is
`restartBootloaderIfNeeded` (p-load.c lines 299-310): when `restartFlag`
is set it requires a handle (outcome `restartHandleCode`) and then issues
the restart command, whose failure maps to `ERROR_OPERATION_FAILED`.
Every step short-circuits on a nonzero outcome of the previous one. -/
def run (parseCode : ExitCode) (as : List QueuedAction) (waitFlag : Bool)
    (waitCode : ExitCode) (restartFlag : Bool) (restartHandleCode : ExitCode)
    (restartDevOk : Bool) : ExitCode × List REvent :=
  if parseCode ≠ EXIT_SUCCESS then (parseCode, [])
  else
    let waitEv : List REvent := if waitFlag then [.discovery] else []
    let wc := if waitFlag then waitCode else EXIT_SUCCESS
    if wc ≠ EXIT_SUCCESS then (wc, waitEv)
    else
      let p := actionsPrepare as
      if p.1 ≠ EXIT_SUCCESS then (p.1, waitEv ++ p.2)
      else
        let e := actionsExecute as
        if e.1 ≠ EXIT_SUCCESS then (e.1, waitEv ++ p.2 ++ e.2)
        else if restartFlag then
          if restartHandleCode ≠ EXIT_SUCCESS then
            (restartHandleCode, waitEv ++ p.2 ++ e.2)
          else if restartDevOk then
            (EXIT_SUCCESS, waitEv ++ p.2 ++ e.2 ++ [.restartCmd])
          else
            (ERROR_OPERATION_FAILED, waitEv ++ p.2 ++ e.2 ++ [.restartCmd])
        else (EXIT_SUCCESS, waitEv ++ p.2 ++ e.2)

/-- `main` (p-load.c lines 884-908): run the orchestrator, then always call
`actionsFree` (and close the handle and free the list) before exiting with
`run`'s code unchanged. -/
def mainP (parseCode : ExitCode) (as : List QueuedAction) (waitFlag : Bool)
    (waitCode : ExitCode) (restartFlag : Bool) (restartHandleCode : ExitCode)
    (restartDevOk : Bool) : ExitCode × List REvent :=
  let r := run parseCode as waitFlag waitCode restartFlag restartHandleCode restartDevOk
  (r.1, r.2 ++ actionsFree as.length)

/-! ## Concrete fixtures used to evaluate the model on closed inputs -/

/-- A sample discovered device. -/
def devA : Device := ⟨"12345678", "Bootloader A"⟩

/-- A second sample discovered device. -/
def devB : Device := ⟨"87654321", "Bootloader B"⟩

/-- Opening a list entry succeeds exactly when the index is in range. -/
def openFromListStd : List Device → Nat → Except Unit Handle := fun l i =>
  match l.get? i with
  | some d => .ok ⟨d⟩
  | none => .error ()

/-- Device info reporting a 4-byte application region and a 2-byte EEPROM. -/
def createInfoStd : Handle → Except Unit PloaderInfo := fun h =>
  .ok ⟨h.device.name, h.device.serialNumber, 0, 4, 2, 100⟩

/-- USB identity lookup succeeding exactly when the index is in range. -/
def listCreateInfoStd : List Device → Nat → Except Unit UsbId := fun l i =>
  match l.get? i with
  | some d => .ok ⟨d.name, d.serialNumber⟩
  | none => .error ()

/-- A well-behaved environment in which exactly one device is connected. -/
def envBase : Env :=
  { listCreate := .ok [devA]
    filterBySerialNumber := fun _ l => .ok l
    openFromList := openFromListStd
    createInfo := createInfoStd
    checkApplication := fun _ => .ok true
    listCreateInfo := listCreateInfoStd
    ploaderWriteFlash := fun _ _ => .ok ()
    ploaderWriteEeprom := fun _ _ => .ok ()
    files := fun _ => none }

/-- An environment in which two devices are connected but only the first
one can be opened. -/
def envTwoHalf : Env :=
  { envBase with
    listCreate := .ok [devA, devB]
    openFromList := fun l i =>
      if i = 0 then openFromListStd l i else .error () }

/-- The idealized wait-loop schedule: the first check at the start instant
`0` and each further check exactly one poll interval (100 ms) later. -/
def cexClock : Nat → Nat := fun i => 100 * i

/-! ## Helper lemmas -/

theorem actionsPrepareFrom_ne (as : List QueuedAction) (i : Nat)
    (h : ∃ a ∈ as, a.prepare ≠ EXIT_SUCCESS) :
    (actionsPrepareFrom as i).1 ≠ EXIT_SUCCESS := by
  induction as generalizing i with
  | nil => simp at h
  | cons a rest ih =>
    obtain ⟨b, hb, hbp⟩ := h
    by_cases ha : a.prepare ≠ EXIT_SUCCESS
    · simp [actionsPrepareFrom, ha]
    · have ha0 : a.prepare = EXIT_SUCCESS := by simpa using ha
      simp only [actionsPrepareFrom, ha, if_false]
      rcases List.mem_cons.mp hb with hba | hbr
      · exact absurd (hba ▸ hbp) (by simp [ha0])
      · exact ih (i + 1) ⟨b, hbr, hbp⟩

theorem actionsPrepareFrom_events (as : List QueuedAction) (i : Nat) :
    ∀ e ∈ (actionsPrepareFrom as i).2, ∃ j, e = REvent.prepareRun j := by
  induction as generalizing i with
  | nil => simp [actionsPrepareFrom]
  | cons a rest ih =>
    intro e he
    by_cases ha : a.prepare ≠ EXIT_SUCCESS
    · simp [actionsPrepareFrom, ha] at he
      exact ⟨i, he⟩
    · simp only [actionsPrepareFrom, ha, if_false, List.mem_cons] at he
      rcases he with he | he
      · exact ⟨i, he⟩
      · exact ih (i + 1) e he

theorem actionsExecuteFrom_zero (as : List QueuedAction) (i : Nat)
    (h : (actionsExecuteFrom as i).1 = EXIT_SUCCESS) :
    ∀ a ∈ as, a.execute = EXIT_SUCCESS := by
  induction as generalizing i with
  | nil => simp
  | cons a rest ih =>
    by_cases ha : a.execute ≠ EXIT_SUCCESS
    · simp [actionsExecuteFrom, ha] at h
    · have ha0 : a.execute = EXIT_SUCCESS := by simpa using ha
      simp only [actionsExecuteFrom, ha, if_false] at h
      intro b hb
      rcases List.mem_cons.mp hb with hba | hbr
      · exact hba ▸ ha0
      · exact ih (i + 1) h b hbr

theorem actionsExecuteFrom_events (as : List QueuedAction) (i : Nat) :
    ∀ e ∈ (actionsExecuteFrom as i).2, ∃ j, e = REvent.executeRun j := by
  induction as generalizing i with
  | nil => simp [actionsExecuteFrom]
  | cons a rest ih =>
    intro e he
    by_cases ha : a.execute ≠ EXIT_SUCCESS
    · simp [actionsExecuteFrom, ha] at he
      exact ⟨i, he⟩
    · simp only [actionsExecuteFrom, ha, if_false, List.mem_cons] at he
      rcases he with he | he
      · exact ⟨i, he⟩
      · exact ih (i + 1) e he

theorem mem_actionsFree (n i : Nat) :
    REvent.release i ∈ actionsFree n ↔ i < n := by
  simp [actionsFree]

theorem actionsFree_events (n : Nat) :
    ∀ e ∈ actionsFree n, ∃ j, e = REvent.release j := by
  intro e he
  simp only [actionsFree, List.mem_map] at he
  obtain ⟨j, _, hj⟩ := he
  exact ⟨j, hj.symm⟩

theorem bootloaderListRequire_handle (env : Env) (st : GState) :
    (bootloaderListRequire env st).1.bootloaderHandle = st.bootloaderHandle := by
  unfold bootloaderListRequire
  rcases st.bootloaderList with _ | l
  · rcases env.listCreate with r | lst
    · rfl
    · rcases hs : st.desiredSerialNumber with _ | sn
      · simp [hs]
      · simp only [hs]
        rcases env.filterBySerialNumber sn lst with e | lst2 <;> rfl
  · rfl

theorem bootloaderListRequire_serial (env : Env) (st : GState) :
    (bootloaderListRequire env st).1.desiredSerialNumber = st.desiredSerialNumber := by
  unfold bootloaderListRequire
  rcases st.bootloaderList with _ | l
  · rcases env.listCreate with r | lst
    · rfl
    · rcases hs : st.desiredSerialNumber with _ | sn
      · simp [hs]
      · simp only [hs]
        rcases env.filterBySerialNumber sn lst with e | lst2 <;> rfl
  · rfl

theorem bootloaderListRequire_events_cached (env : Env) (st : GState)
    (l : List Device) (h : st.bootloaderList = some l) :
    (bootloaderListRequire env st).2.1 = [] := by
  unfold bootloaderListRequire
  rw [h]

theorem bootloaderListRequire_events_fresh (env : Env) (st : GState)
    (h : st.bootloaderList = none) :
    BEvent.listCreate ∈ (bootloaderListRequire env st).2.1 := by
  unfold bootloaderListRequire
  rw [h]
  rcases env.listCreate with r | lst
  · simp
  · rcases hs : st.desiredSerialNumber with _ | sn
    · simp
    · simp only [hs]
      rcases env.filterBySerialNumber sn lst with e | lst2 <;> simp

theorem bootloaderListRequire_events_shape (env : Env) (st : GState) :
    ∀ e ∈ (bootloaderListRequire env st).2.1,
      e = BEvent.listCreate ∨ e = BEvent.filterList := by
  unfold bootloaderListRequire
  rcases st.bootloaderList with _ | l
  · rcases env.listCreate with r | lst
    · simp
    · rcases hs : st.desiredSerialNumber with _ | sn
      · simp [hs]
      · simp only [hs]
        rcases env.filterBySerialNumber sn lst with e | lst2 <;> simp
  · simp

theorem bootloaderHandleRequire_events_shape (env : Env) (st : GState) :
    ∀ e ∈ (bootloaderHandleRequire env st).2.2.1,
      e = BEvent.listCreate ∨ e = BEvent.filterList ∨ e = BEvent.openDev 0 := by
  unfold bootloaderHandleRequire
  rcases st.bootloaderHandle with _ | h0
  · rcases hreq : bootloaderListRequire env st with ⟨st1, ev1, r⟩
    have hshape := bootloaderListRequire_events_shape env st
    rw [hreq] at hshape
    rcases r with c | lst
    · intro e he
      rcases hshape e he with h1 | h1
      · exact Or.inl h1
      · exact Or.inr (Or.inl h1)
    · by_cases h0l : lst.length = 0
      · simp only [h0l, if_pos rfl]
        intro e he
        rcases hshape e he with h1 | h1
        · exact Or.inl h1
        · exact Or.inr (Or.inl h1)
      · by_cases h1l : lst.length > 1
        · simp only [h0l, if_false, h1l, if_pos rfl]
          intro e he
          rcases hshape e he with h1 | h1
          · exact Or.inl h1
          · exact Or.inr (Or.inl h1)
        · simp only [h0l, h1l, if_false]
          rcases env.openFromList lst 0 with u | hh
          all_goals
            intro e he
            simp only [List.mem_append, List.mem_singleton] at he
            rcases he with he | he
            · rcases hshape e he with h1 | h1
              · exact Or.inl h1
              · exact Or.inr (Or.inl h1)
            · exact Or.inr (Or.inr he)
  · simp

theorem listBootloadersLoop_ok (env : Env) (lst : List Device) :
    ∀ n i, (∀ j, j < n → ∃ u, env.listCreateInfo lst (i + j) = .ok u) →
    (listBootloadersLoop env lst i n).2 = EXIT_SUCCESS ∧
    ∀ j, j < n → ∃ u, env.listCreateInfo lst (i + j) = .ok u ∧
      Msg.mk .stdout (.listRow u.serialNumber u.name (getStatus env lst (i + j)).1)
        ∈ (listBootloadersLoop env lst i n).1 ∧
      ∀ m ∈ (getStatus env lst (i + j)).2, m ∈ (listBootloadersLoop env lst i n).1 := by
  intro n
  induction n with
  | zero =>
    intro i _
    exact ⟨rfl, by omega⟩
  | succ n ih =>
    intro i h
    obtain ⟨u0, hu0⟩ := h 0 (by omega)
    have hu0i : env.listCreateInfo lst i = .ok u0 := by simpa using hu0
    have hshift : ∀ j, j < n → ∃ u, env.listCreateInfo lst ((i + 1) + j) = .ok u := by
      intro j hj
      obtain ⟨u, hu⟩ := h (j + 1) (by omega)
      exact ⟨u, by rw [show i + 1 + j = i + (j + 1) by omega]; exact hu⟩
    obtain ⟨ihc, ihm⟩ := ih (i + 1) hshift
    have hloop : listBootloadersLoop env lst i (n + 1) =
        ((getStatus env lst i).2 ++
          [⟨.stdout, .listRow u0.serialNumber u0.name (getStatus env lst i).1⟩] ++
          (listBootloadersLoop env lst (i + 1) n).1,
          (listBootloadersLoop env lst (i + 1) n).2) := by
      simp [listBootloadersLoop, hu0i]
    constructor
    · rw [hloop]
      exact ihc
    · intro j hj
      rcases Nat.eq_zero_or_pos j with hj0 | hjp
      · subst hj0
        refine ⟨u0, hu0, ?_, ?_⟩
        · rw [hloop]
          simp
        · intro m hm
          rw [hloop]
          simp only [List.mem_append]
          exact Or.inl (Or.inl (by simpa using hm))
      · obtain ⟨j2, rfl⟩ : ∃ j2, j = j2 + 1 := ⟨j - 1, by omega⟩
        obtain ⟨u, hu, hrow, hwarn⟩ := ihm j2 (by omega)
        have hidx : i + 1 + j2 = i + (j2 + 1) := by omega
        rw [hidx] at hu hrow hwarn
        refine ⟨u, hu, ?_, ?_⟩
        · rw [hloop]
          simp only [List.mem_append]
          exact Or.inr hrow
        · intro m hm
          rw [hloop]
          simp only [List.mem_append]
          exact Or.inr (hwarn m hm)

theorem waitLoop_first_hit (t0 : Nat) (clock : Nat → Nat)
    (discover : Nat → Except ExitCode (List Device))
    (hdisc : ∀ i, discover i = .ok []) :
    ∀ fuel i j, i ≤ j → j < i + fuel → clock j / 1000 > t0 / 1000 + 10 →
    ∃ k, i ≤ k ∧ k ≤ j ∧ clock k / 1000 > t0 / 1000 + 10 ∧
      (∀ m, i ≤ m → m < k → ¬(clock m / 1000 > t0 / 1000 + 10)) ∧
      waitForBootloaderLoop t0 clock discover fuel i =
        some (ERROR_BOOTLOADER_NOT_FOUND, clock k) := by
  intro fuel
  induction fuel with
  | zero =>
    intro i j hij hlt _
    omega
  | succ f ih =>
    intro i j hij hlt hhit
    by_cases hc : clock i / 1000 > t0 / 1000 + 10
    · refine ⟨i, le_refl i, hij, hc, by omega, ?_⟩
      simp [waitForBootloaderLoop, hdisc i, hc]
    · have hne : i ≠ j := fun he => hc (he ▸ hhit)
      obtain ⟨k, hk1, hk2, hk3, hk4, hk5⟩ :=
        ih (i + 1) j (by omega) (by omega) hhit
      refine ⟨k, by omega, hk2, hk3, ?_, ?_⟩
      · intro m hm1 hm2
        rcases Nat.eq_or_lt_of_le hm1 with hm | hm
        · exact hm ▸ hc
        · exact hk4 m (by omega) hm2
      · rw [show waitForBootloaderLoop t0 clock discover (f + 1) i =
            waitForBootloaderLoop t0 clock discover f (i + 1) by
          simp [waitForBootloaderLoop, hdisc i, hc]]
        exact hk5

/-! ## Claim theorems -/

/-- C1: For every command line whose pipeline holds two or more actions, if
the prepare phase of the action at index `k` fails, then no queued action
(any index) ever has its execute phase invoked, and the release function of
every action whose allocate phase succeeded (every queued action) is still
invoked before the process exits. -/
theorem claim_C1 (as : List QueuedAction) (wf rf : Bool) (rhc : ExitCode)
    (rdo : Bool) (k : Nat) (hlen : 2 ≤ as.length) (hk : k < as.length)
    (hfail : (as.get ⟨k, hk⟩).prepare ≠ EXIT_SUCCESS) :
    (∀ i, REvent.executeRun i ∉
      (mainP EXIT_SUCCESS as wf EXIT_SUCCESS rf rhc rdo).2) ∧
    (∀ i, i < as.length → REvent.release i ∈
      (mainP EXIT_SUCCESS as wf EXIT_SUCCESS rf rhc rdo).2) := by
  have hmem : ∃ a ∈ as, a.prepare ≠ EXIT_SUCCESS :=
    ⟨as.get ⟨k, hk⟩, List.get_mem as k hk, hfail⟩
  have hp : (actionsPrepareFrom as 0).1 ≠ EXIT_SUCCESS :=
    actionsPrepareFrom_ne as 0 hmem
  have hrun : run EXIT_SUCCESS as wf EXIT_SUCCESS rf rhc rdo =
      ((actionsPrepareFrom as 0).1,
        (if wf then [REvent.discovery] else []) ++ (actionsPrepareFrom as 0).2) := by
    simp [run, actionsPrepare, hp]
  constructor
  · intro i hin
    simp only [mainP, hrun, List.mem_append] at hin
    rcases hin with (hin | hin) | hin
    · cases wf <;> simp at hin
    · obtain ⟨j, hj⟩ := actionsPrepareFrom_events as 0 _ hin
      exact REvent.noConfusion hj
    · obtain ⟨j, hj⟩ := actionsFree_events as.length _ hin
      exact REvent.noConfusion hj
  · intro i hi
    simp only [mainP, hrun, List.mem_append]
    right
    exact (mem_actionsFree as.length i).mpr hi

/-- Closed instance of `claim_C1`: a two-action pipeline whose second
action's prepare phase fails with code 5; action 0 is never executed and
action 1 is still released. -/
theorem claim_C1_witness :
    REvent.executeRun 0 ∉
      (mainP EXIT_SUCCESS [{prepare := EXIT_SUCCESS}, {prepare := 5}]
        false EXIT_SUCCESS false EXIT_SUCCESS true).2 ∧
    REvent.release 1 ∈
      (mainP EXIT_SUCCESS [{prepare := EXIT_SUCCESS}, {prepare := 5}]
        false EXIT_SUCCESS false EXIT_SUCCESS true).2 :=
  ⟨(claim_C1 [{prepare := EXIT_SUCCESS}, {prepare := 5}] false false
      EXIT_SUCCESS true 1 (by decide) (by decide) (by decide)).1 0,
   (claim_C1 [{prepare := EXIT_SUCCESS}, {prepare := 5}] false false
      EXIT_SUCCESS true 1 (by decide) (by decide) (by decide)).2 1 (by decide)⟩

/-- C2: When an open device handle is required and none is cached: a
zero-entry (possibly serial-filtered) list yields
`ERROR_BOOTLOADER_NOT_FOUND`; a one-entry list has that device opened, the
handle cached, and its name and serial number displayed; a list with more
than one entry yields `ERROR_OPERATION_FAILED` with no handle opened.  (In
the one-entry case the open and info calls are assumed to succeed; their
failures are the device's, not the selection policy's.) -/
theorem claim_C2 (env : Env) (st st1 : GState) (ev1 : List BEvent)
    (lst : List Device) (h1 : st.bootloaderHandle = none)
    (h2 : bootloaderListRequire env st = (st1, ev1, .ok lst)) :
    (lst.length = 0 →
      (bootloaderHandleRequire env st).2.2.2 = ERROR_BOOTLOADER_NOT_FOUND ∧
      (bootloaderHandleRequire env st).1.bootloaderHandle = none) ∧
    (∀ h pin, lst.length = 1 → env.openFromList lst 0 = .ok h →
      env.createInfo h = .ok pin →
      bootloaderHandleRequire env st =
        ({st1 with bootloaderHandle := some h},
          [⟨.info, .bootloaderName pin.name⟩,
           ⟨.info, .serialNumberLine pin.serialNumber⟩],
          ev1 ++ [.openDev 0], EXIT_SUCCESS)) ∧
    (1 < lst.length →
      (bootloaderHandleRequire env st).2.2.2 = ERROR_OPERATION_FAILED ∧
      (bootloaderHandleRequire env st).1.bootloaderHandle = none) := by
  have hh1 : st1.bootloaderHandle = none := by
    have hpres := bootloaderListRequire_handle env st
    rw [h2] at hpres
    rw [hpres, h1]
  refine ⟨?_, ?_, ?_⟩
  · intro hlen0
    simp [bootloaderHandleRequire, h1, h2, hlen0, bootloaderNotFoundError, hh1]
  · intro h pin hlen1 hopen hinfo
    simp [bootloaderHandleRequire, h1, h2, hlen1, hopen, hinfo,
      printBootloaderInfo]
  · intro hlen2
    have hne0 : ¬(lst.length = 0) := by omega
    simp [bootloaderHandleRequire, h1, h2, hne0, hlen2, hh1]

/-- Closed instance of `claim_C2`: in `envBase` exactly one device is
discovered; requiring a handle opens it, caches it, and displays its name
and serial number. -/
theorem claim_C2_witness :
    bootloaderHandleRequire envBase {} =
      ((⟨none, some [devA], some ⟨devA⟩⟩ : GState),
        [⟨.info, .bootloaderName "Bootloader A"⟩,
         ⟨.info, .serialNumberLine "12345678"⟩],
        [.listCreate] ++ [.openDev 0], EXIT_SUCCESS) :=
  (claim_C2 envBase {} (⟨none, some [devA], none⟩ : GState)
      [.listCreate] [devA] rfl rfl).2.1
    ⟨devA⟩ ⟨"Bootloader A", "12345678", 0, 4, 2, 100⟩ rfl rfl rfl

theorem writeFlashAndEeprom_events (env : Env) (st : GState) (d : HexFileInput)
    (fl ee : List Nat) (hfl : d.flash = some fl) (hee : d.eeprom = some ee)
    (hok : (writeFlashAndEeprom env st d).2.2.2 = EXIT_SUCCESS) :
    BEvent.writeFlashDev fl ∈ (writeFlashAndEeprom env st d).2.2.1 ∧
    BEvent.writeEepromDev ee ∈ (writeFlashAndEeprom env st d).2.2.1 ∧
    (∀ b, BEvent.writeFlashDev b ∈ (writeFlashAndEeprom env st d).2.2.1 → b = fl) ∧
    (∀ b, BEvent.writeEepromDev b ∈ (writeFlashAndEeprom env st d).2.2.1 → b = ee) := by
  rcases hhr : bootloaderHandleRequire env st with ⟨st1, m1, e1, c⟩
  have hshape := bootloaderHandleRequire_events_shape env st
  rw [hhr] at hshape
  simp only [writeFlashAndEeprom, hfl, hee, hhr] at hok ⊢
  by_cases hc : c = EXIT_SUCCESS
  · simp only [hc, ne_eq, not_true_eq_false, if_false] at hok ⊢
    rcases hbh : st1.bootloaderHandle with _ | h
    · simp only [hbh] at hok
      exact absurd hok (by decide)
    · simp only [hbh] at hok ⊢
      rcases hw1 : env.ploaderWriteFlash h fl with u | u
      · simp only [hw1] at hok
        exact absurd hok (by decide)
      · simp only [hw1] at hok ⊢
        rcases hw2 : env.ploaderWriteEeprom h ee with v | v
        · simp only [hw2] at hok
          exact absurd hok (by decide)
        · simp only [hw2] at hok ⊢
          refine ⟨by simp, by simp, ?_, ?_⟩
          · intro b hb
            simp only [List.mem_append] at hb
            rcases hb with hb | hb
            · rcases hshape _ hb with h1 | h1 | h1 <;> exact BEvent.noConfusion h1
            · simpa using hb
          · intro b hb
            simp only [List.mem_append] at hb
            rcases hb with hb | hb
            · rcases hshape _ hb with h1 | h1 | h1 <;> exact BEvent.noConfusion h1
            · simpa using hb
  · simp [hc] at hok

theorem writeFlash_events (env : Env) (st : GState) (d : HexFileInput)
    (fl : List Nat) (hfl : d.flash = some fl)
    (hok : (writeFlash env st d).2.2.2 = EXIT_SUCCESS) :
    BEvent.writeFlashDev fl ∈ (writeFlash env st d).2.2.1 ∧
    (∀ b, BEvent.writeFlashDev b ∈ (writeFlash env st d).2.2.1 → b = fl) := by
  rcases hhr : bootloaderHandleRequire env st with ⟨st1, m1, e1, c⟩
  have hshape := bootloaderHandleRequire_events_shape env st
  rw [hhr] at hshape
  simp only [writeFlash, hfl, hhr] at hok ⊢
  by_cases hc : c = EXIT_SUCCESS
  · simp only [hc, ne_eq, not_true_eq_false, if_false] at hok ⊢
    rcases hbh : st1.bootloaderHandle with _ | h
    · simp only [hbh] at hok
      exact absurd hok (by decide)
    · simp only [hbh] at hok ⊢
      rcases hw1 : env.ploaderWriteFlash h fl with u | u
      · simp only [hw1] at hok
        exact absurd hok (by decide)
      · simp only [hw1] at hok ⊢
        refine ⟨by simp, ?_⟩
        intro b hb
        simp only [List.mem_append] at hb
        rcases hb with hb | hb
        · rcases hshape _ hb with h1 | h1 | h1 <;> exact BEvent.noConfusion h1
        · simpa using hb
  · simp [hc] at hok

theorem writeEeprom_events (env : Env) (st : GState) (d : HexFileInput)
    (ee : List Nat) (hee : d.eeprom = some ee)
    (hok : (writeEeprom env st d).2.2.2 = EXIT_SUCCESS) :
    BEvent.writeEepromDev ee ∈ (writeEeprom env st d).2.2.1 ∧
    (∀ b, BEvent.writeEepromDev b ∈ (writeEeprom env st d).2.2.1 → b = ee) := by
  rcases hhr : bootloaderHandleRequire env st with ⟨st1, m1, e1, c⟩
  have hshape := bootloaderHandleRequire_events_shape env st
  rw [hhr] at hshape
  simp only [writeEeprom, hee, hhr] at hok ⊢
  by_cases hc : c = EXIT_SUCCESS
  · simp only [hc, ne_eq, not_true_eq_false, if_false] at hok ⊢
    rcases hbh : st1.bootloaderHandle with _ | h
    · simp only [hbh] at hok
      exact absurd hok (by decide)
    · simp only [hbh] at hok ⊢
      rcases hw1 : env.ploaderWriteEeprom h ee with u | u
      · simp only [hw1] at hok
        exact absurd hok (by decide)
      · simp only [hw1] at hok ⊢
        refine ⟨by simp, ?_⟩
        intro b hb
        simp only [List.mem_append] at hb
        rcases hb with hb | hb
        · rcases hshape _ hb with h1 | h1 | h1 <;> exact BEvent.noConfusion h1
        · simpa using hb
  · simp [hc] at hok

/-- C3: Every erase action's prepare phase is `clearHexFileInput` and its
parse phase is absent; `clearHexFileInput` produces, for each region, a
buffer of exactly the device-reported size (`appSize` for flash,
`eepromSize` for EEPROM) with every byte `0xFF`, opening no file (its
result does not depend on the file system and its trace has no file-open
event); and the erase actions' execute phases (`writeFlashAndEeprom`,
`writeFlash`, `writeEeprom`) send exactly the prepared buffers to the
device. -/
theorem claim_C3 :
    (actEraseFlashAndEeprom.parse = none ∧ actEraseFlash.parse = none ∧
      actEraseEeprom.parse = none) ∧
    (actEraseFlashAndEeprom.prepare = some PrepFn.clearHexFileInput ∧
      actEraseFlash.prepare = some PrepFn.clearHexFileInput ∧
      actEraseEeprom.prepare = some PrepFn.clearHexFileInput) ∧
    (actEraseFlashAndEeprom.execute = some ExecFn.writeFlashAndEeprom ∧
      actEraseFlash.execute = some ExecFn.writeFlash ∧
      actEraseEeprom.execute = some ExecFn.writeEeprom) ∧
    (∀ env fs st data,
      clearHexFileInput {env with files := fs} st data =
        clearHexFileInput env st data) ∧
    (∀ env st data st1 msgs1 ev1 d h pin,
      clearHexFileInput env st data = (st1, msgs1, ev1, .ok d) →
      st1.bootloaderHandle = some h →
      env.createInfo h = .ok pin →
      d.flash = some (List.replicate pin.appSize 255) ∧
      d.eeprom = some (List.replicate pin.eepromSize 255) ∧
      (List.replicate pin.appSize (255 : Nat)).length = pin.appSize ∧
      (∀ b ∈ List.replicate pin.appSize (255 : Nat), b = 255) ∧
      (List.replicate pin.eepromSize (255 : Nat)).length = pin.eepromSize ∧
      (∀ b ∈ List.replicate pin.eepromSize (255 : Nat), b = 255) ∧
      (∀ nm, BEvent.fileOpen nm ∉ ev1)) ∧
    (∀ env st d fl ee, d.flash = some fl → d.eeprom = some ee →
      (writeFlashAndEeprom env st d).2.2.2 = EXIT_SUCCESS →
      BEvent.writeFlashDev fl ∈ (writeFlashAndEeprom env st d).2.2.1 ∧
      BEvent.writeEepromDev ee ∈ (writeFlashAndEeprom env st d).2.2.1 ∧
      (∀ b, BEvent.writeFlashDev b ∈ (writeFlashAndEeprom env st d).2.2.1 → b = fl) ∧
      (∀ b, BEvent.writeEepromDev b ∈ (writeFlashAndEeprom env st d).2.2.1 → b = ee)) ∧
    (∀ env st d fl, d.flash = some fl →
      (writeFlash env st d).2.2.2 = EXIT_SUCCESS →
      BEvent.writeFlashDev fl ∈ (writeFlash env st d).2.2.1 ∧
      (∀ b, BEvent.writeFlashDev b ∈ (writeFlash env st d).2.2.1 → b = fl)) ∧
    (∀ env st d ee, d.eeprom = some ee →
      (writeEeprom env st d).2.2.2 = EXIT_SUCCESS →
      BEvent.writeEepromDev ee ∈ (writeEeprom env st d).2.2.1 ∧
      (∀ b, BEvent.writeEepromDev b ∈ (writeEeprom env st d).2.2.1 → b = ee)) := by
  refine ⟨⟨rfl, rfl, rfl⟩, ⟨rfl, rfl, rfl⟩, ⟨rfl, rfl, rfl⟩, ?_, ?_,
    fun env st d fl ee hfl hee hok =>
      writeFlashAndEeprom_events env st d fl ee hfl hee hok,
    fun env st d fl hfl hok => writeFlash_events env st d fl hfl hok,
    fun env st d ee hee hok => writeEeprom_events env st d ee hee hok⟩
  · intro env fs st data
    rfl
  · intro env st data st1 msgs1 ev1 d h pin hclr hh hpin
    rcases hhr : bootloaderHandleRequire env st with ⟨st1x, m1x, e1x, c⟩
    have hshape := bootloaderHandleRequire_events_shape env st
    rw [hhr] at hshape
    simp only [clearHexFileInput, hhr] at hclr
    by_cases hc : c = EXIT_SUCCESS
    · simp only [hc, ne_eq, not_true_eq_false, if_false] at hclr
      rcases hbh : st1x.bootloaderHandle with _ | h0
      · simp [hbh] at hclr
      · simp only [hbh] at hclr
        rcases hci : env.createInfo h0 with u | pin0
        · simp [hci] at hclr
        · simp only [hci] at hclr
          obtain ⟨he1, he2, he3, he4⟩ :
              st1x = st1 ∧ m1x = msgs1 ∧ e1x = ev1 ∧
              ({data with
                  flash := some (List.replicate pin0.appSize 255),
                  eeprom := some (List.replicate pin0.eepromSize 255)} :
                HexFileInput) = d := by
            simpa [Prod.ext_iff] using hclr
          subst he1
          have hsome : some h0 = some h := hbh.symm.trans hh
          have hh0 : h0 = h := by injection hsome
          subst hh0
          have hpin0 : pin0 = pin := by
            have := hci.symm.trans hpin
            injection this
          subst hpin0
          refine ⟨by rw [← he4], by rw [← he4],
            List.length_replicate _ _,
            fun b hb => List.eq_of_mem_replicate hb,
            List.length_replicate _ _,
            fun b hb => List.eq_of_mem_replicate hb, ?_⟩
          intro nm hmem
          rw [← he3] at hmem
          rcases hshape _ hmem with h1 | h1 | h1 <;> exact BEvent.noConfusion h1
    · simp [hc] at hclr

/-- Closed instance of `claim_C3`: with the one-device environment
reporting a 4-byte flash region and a 2-byte EEPROM, the erase prepare
phase produces the all-`0xFF` buffers of exactly those lengths. -/
theorem claim_C3_witness :
    (⟨none, some (List.replicate 4 255), some (List.replicate 2 255)⟩ :
        HexFileInput).flash = some (List.replicate 4 255) ∧
    (⟨none, some (List.replicate 4 255), some (List.replicate 2 255)⟩ :
        HexFileInput).eeprom = some (List.replicate 2 255) :=
  ⟨(claim_C3.2.2.2.2.1 envBase {} {} _ _ _ _ ⟨devA⟩
      ⟨"Bootloader A", "12345678", 0, 4, 2, 100⟩ rfl rfl rfl).1,
   (claim_C3.2.2.2.2.1 envBase {} {} _ _ _ _ ⟨devA⟩
      ⟨"Bootloader A", "12345678", 0, 4, 2, 100⟩ rfl rfl rfl).2.1⟩

/-- Counterexample to C4 as stated: with no device ever present and the
most favorable realizable schedule (first check at the start instant,
every later check exactly one poll interval of 100 ms after the previous
one, start time 0), the wait loop returns `ERROR_BOOTLOADER_NOT_FOUND` at
elapsed wall-clock time 11000 ms, which is later than the claimed bound of
the 10000 ms timeout plus one 100 ms poll interval.  The cause is the
one-second granularity of `time(NULL)`: `difftime(...) > 10` first holds
when the whole-second readings differ by 11. -/
theorem claim_C4_cex :
    waitForBootloaderLoop 0 cexClock (fun _ => .ok []) 120 0 =
      some (ERROR_BOOTLOADER_NOT_FOUND, 11000) ∧
    10000 + 100 < 11000 - 0 := by
  constructor
  · decide
  · decide

/-- C4 (amended): with the wait flag set and no matching device ever
present, the wait loop returns `ERROR_BOOTLOADER_NOT_FOUND`, no earlier
than the 10-second timeout, but — because `time(NULL)` has one-second
granularity — possibly as late as the timeout plus one second plus one
poll interval; under the idealized zero-overhead schedule (checks exactly
every 100 ms from the start instant) the elapsed time at return lies in
(10000 ms, 11000 ms], not within 10100 ms. -/
theorem claim_C4 (t0 fuel : Nat)
    (discover : Nat → Except ExitCode (List Device))
    (hdisc : ∀ i, discover i = .ok []) (hfuel : 111 ≤ fuel) :
    ∃ k, waitForBootloaderLoop t0 (fun i => t0 + 100 * i) discover fuel 0 =
        some (ERROR_BOOTLOADER_NOT_FOUND, t0 + 100 * k) ∧
      10000 < 100 * k ∧ 100 * k ≤ 11000 := by
  have hhit110 : (t0 + 100 * 110) / 1000 > t0 / 1000 + 10 := by
    have h1 : t0 + 100 * 110 = t0 + 1000 * 11 := by norm_num
    rw [h1, Nat.add_mul_div_left _ _ (by norm_num : (0 : Nat) < 1000)]
    omega
  obtain ⟨k, hk0, hk110, hkhit, hkmin, heq⟩ :=
    waitLoop_first_hit t0 (fun i => t0 + 100 * i) discover hdisc fuel 0 110
      (by omega) (by omega) hhit110
  refine ⟨k, heq, ?_, by omega⟩
  by_contra hle
  push_neg at hle
  have hck : t0 + 100 * k ≤ t0 + 1000 * 10 := by omega
  have hdivle : (t0 + 100 * k) / 1000 ≤ (t0 + 1000 * 10) / 1000 :=
    Nat.div_le_div_right hck
  rw [Nat.add_mul_div_left _ _ (by norm_num : (0 : Nat) < 1000)] at hdivle
  exact absurd hkhit (by simpa using Nat.not_lt.mpr hdivle)

/-- Closed instance of `claim_C4`: start time 0, fuel 120. -/
theorem claim_C4_witness :
    ∃ k, waitForBootloaderLoop 0 (fun i => 0 + 100 * i)
        (fun _ => .ok []) 120 0 =
        some (ERROR_BOOTLOADER_NOT_FOUND, 0 + 100 * k) ∧
      10000 < 100 * k ∧ 100 * k ≤ 11000 :=
  claim_C4 0 120 (fun _ => .ok []) (fun _ => rfl) (by decide)

/-- Counterexample to C5 as stated: with a device list already cached
(exactly the situation `--wait --list` produces, since the wait loop
leaves the list cached on success), the list action performs no
`ploaderListCreate` call at all — it reuses the cached list — yet runs to
completion: here the cache holds one device while a fresh discovery would
find none, and the action still succeeds without any discovery event. -/
theorem claim_C5_cex :
    BEvent.listCreate ∉
      (listConnectedBootloaders {envBase with listCreate := .ok []}
        ⟨none, some [devA], none⟩).2.2.1 ∧
    (listConnectedBootloaders {envBase with listCreate := .ok []}
      ⟨none, some [devA], none⟩).2.2.2 = EXIT_SUCCESS := by
  constructor
  · decide
  · decide

/-- C5 (amended): whenever the list-devices action executes, any cached
open device handle is closed and set to null before enumeration (the trace
begins with the close and the resulting state holds no handle), and the
action performs a fresh device discovery exactly when no device list is
cached: with an empty cache it issues `ploaderListCreate`, but a
previously cached device list is reused without any discovery call. -/
theorem claim_C5 (env : Env) (st : GState) :
    (∃ evtail, (listConnectedBootloaders env st).2.2.1 =
      BEvent.closeHandle :: evtail) ∧
    (listConnectedBootloaders env st).1.bootloaderHandle = none ∧
    (st.bootloaderList = none →
      BEvent.listCreate ∈ (listConnectedBootloaders env st).2.2.1) ∧
    (∀ l, st.bootloaderList = some l →
      BEvent.listCreate ∉ (listConnectedBootloaders env st).2.2.1) := by
  rcases hreq : bootloaderListRequire env {st with bootloaderHandle := none}
    with ⟨st1, ev1, r⟩
  have hh1 : st1.bootloaderHandle = none := by
    have hp := bootloaderListRequire_handle env {st with bootloaderHandle := none}
    rw [hreq] at hp
    exact hp
  have hev : (listConnectedBootloaders env st).2.2.1 =
      BEvent.closeHandle :: ev1 := by
    simp only [listConnectedBootloaders, hreq]
    rcases r with c | lst
    · rfl
    · dsimp only
      split
      · rfl
      · split
        · rfl
        · rfl
  have hst : (listConnectedBootloaders env st).1 = st1 := by
    simp only [listConnectedBootloaders, hreq]
    rcases r with c | lst
    · rfl
    · dsimp only
      split
      · rfl
      · split
        · rfl
        · rfl
  refine ⟨⟨ev1, hev⟩, by rw [hst]; exact hh1, ?_, ?_⟩
  · intro hnone
    have hfr := bootloaderListRequire_events_fresh env
      {st with bootloaderHandle := none} (by simpa using hnone)
    rw [hreq] at hfr
    rw [hev]
    exact List.mem_cons_of_mem _ hfr
  · intro l hsome hmem
    have hca := bootloaderListRequire_events_cached env
      {st with bootloaderHandle := none} l (by simpa using hsome)
    rw [hreq] at hca
    simp only [] at hca
    rw [hev] at hmem
    rw [show ev1 = [] from hca] at hmem
    simp at hmem

/-- Closed instance of `claim_C5`: with nothing cached the list action
holds no handle afterwards and performs a fresh discovery. -/
theorem claim_C5_witness :
    (listConnectedBootloaders envBase {}).1.bootloaderHandle = none ∧
    BEvent.listCreate ∈ (listConnectedBootloaders envBase {}).2.2.1 :=
  ⟨(claim_C5 envBase {}).2.1, (claim_C5 envBase {}).2.2.1 rfl⟩

/-- C6: The flag `-w FILE` queues a write-flash-and-EEPROM action for FILE
and additionally sets the restart flag (unlike `--write`), and the device
restart command is issued only after every queued action's execute phase
completed successfully: whenever the restart command appears in the run
trace, every queued action's execute phase succeeded and no execute event
follows the restart command. -/
theorem claim_C6 :
    (∀ st f rest, parseArgsFrom ("-w" :: f :: rest) st =
      parseArgsFrom rest
        {st with actions := st.actions ++ [⟨actWriteFlashAndEeprom, some f⟩],
                 restartBootloaderFlag := true}) ∧
    (∀ f, parseArgs ["-w", f] = .ok
      ⟨none, false, true, [⟨actWriteFlashAndEeprom, some f⟩]⟩) ∧
    actWriteFlashAndEeprom.execute = some ExecFn.writeFlashAndEeprom ∧
    (∀ as wf rhc rdo,
      REvent.restartCmd ∈ (mainP EXIT_SUCCESS as wf EXIT_SUCCESS true rhc rdo).2 →
      (∀ a ∈ as, a.execute = EXIT_SUCCESS) ∧
      ∃ l1 l2, (mainP EXIT_SUCCESS as wf EXIT_SUCCESS true rhc rdo).2 =
          l1 ++ REvent.restartCmd :: l2 ∧
        (∀ i, REvent.executeRun i ∉ l2)) := by
  refine ⟨fun st f rest => by simp [parseArgsFrom],
    fun f => by simp [parseArgs, parseArgsFrom], rfl, ?_⟩
  intro as wf rhc rdo hmem
  by_cases hp : (actionsPrepareFrom as 0).1 = EXIT_SUCCESS
  · by_cases he : (actionsExecuteFrom as 0).1 = EXIT_SUCCESS
    · by_cases hr : rhc = EXIT_SUCCESS
      · have htr : (mainP EXIT_SUCCESS as wf EXIT_SUCCESS true rhc rdo).2 =
            ((if wf then [REvent.discovery] else []) ++
              (actionsPrepareFrom as 0).2 ++ (actionsExecuteFrom as 0).2) ++
            (REvent.restartCmd :: actionsFree as.length) := by
          cases rdo <;>
            simp [mainP, run, actionsPrepare, actionsExecute, hp, he, hr,
              List.append_assoc]
        refine ⟨actionsExecuteFrom_zero as 0 he,
          (if wf then [REvent.discovery] else []) ++
            (actionsPrepareFrom as 0).2 ++ (actionsExecuteFrom as 0).2,
          actionsFree as.length, htr, ?_⟩
        intro i hin
        obtain ⟨j, hj⟩ := actionsFree_events as.length _ hin
        exact REvent.noConfusion hj
      · have htr : (mainP EXIT_SUCCESS as wf EXIT_SUCCESS true rhc rdo).2 =
            (if wf then [REvent.discovery] else []) ++
              (actionsPrepareFrom as 0).2 ++ (actionsExecuteFrom as 0).2 ++
              actionsFree as.length := by
          simp [mainP, run, actionsPrepare, actionsExecute, hp, he, hr,
            List.append_assoc]
        rw [htr] at hmem
        simp only [List.mem_append] at hmem
        rcases hmem with ((h1 | h1) | h1) | h1
        · cases wf <;> simp at h1
        · obtain ⟨j, hj⟩ := actionsPrepareFrom_events as 0 _ h1
          exact REvent.noConfusion hj
        · obtain ⟨j, hj⟩ := actionsExecuteFrom_events as 0 _ h1
          exact REvent.noConfusion hj
        · obtain ⟨j, hj⟩ := actionsFree_events as.length _ h1
          exact REvent.noConfusion hj
    · have htr : (mainP EXIT_SUCCESS as wf EXIT_SUCCESS true rhc rdo).2 =
          (if wf then [REvent.discovery] else []) ++
            (actionsPrepareFrom as 0).2 ++ (actionsExecuteFrom as 0).2 ++
            actionsFree as.length := by
        simp [mainP, run, actionsPrepare, actionsExecute, hp, he,
          List.append_assoc]
      rw [htr] at hmem
      simp only [List.mem_append] at hmem
      rcases hmem with ((h1 | h1) | h1) | h1
      · cases wf <;> simp at h1
      · obtain ⟨j, hj⟩ := actionsPrepareFrom_events as 0 _ h1
        exact REvent.noConfusion hj
      · obtain ⟨j, hj⟩ := actionsExecuteFrom_events as 0 _ h1
        exact REvent.noConfusion hj
      · obtain ⟨j, hj⟩ := actionsFree_events as.length _ h1
        exact REvent.noConfusion hj
  · have htr : (mainP EXIT_SUCCESS as wf EXIT_SUCCESS true rhc rdo).2 =
        (if wf then [REvent.discovery] else []) ++
          (actionsPrepareFrom as 0).2 ++ actionsFree as.length := by
      simp [mainP, run, actionsPrepare, hp, List.append_assoc]
    rw [htr] at hmem
    simp only [List.mem_append] at hmem
    rcases hmem with (h1 | h1) | h1
    · cases wf <;> simp at h1
    · obtain ⟨j, hj⟩ := actionsPrepareFrom_events as 0 _ h1
      exact REvent.noConfusion hj
    · obtain ⟨j, hj⟩ := actionsFree_events as.length _ h1
      exact REvent.noConfusion hj

/-- Closed instance of `claim_C6`: `-w app.hex` queues exactly the
write-flash-and-EEPROM action with the restart flag set, and in a
one-action run whose execute succeeds, the restart command follows all
execute events. -/
theorem claim_C6_witness :
    parseArgs ["-w", "app.hex"] = .ok
      ⟨none, false, true, [⟨actWriteFlashAndEeprom, some "app.hex"⟩]⟩ ∧
    ((∀ a ∈ ([⟨EXIT_SUCCESS, EXIT_SUCCESS⟩] : List QueuedAction),
        a.execute = EXIT_SUCCESS) ∧
      ∃ l1 l2, (mainP EXIT_SUCCESS [⟨EXIT_SUCCESS, EXIT_SUCCESS⟩] false
          EXIT_SUCCESS true EXIT_SUCCESS true).2 =
          l1 ++ REvent.restartCmd :: l2 ∧ (∀ i, REvent.executeRun i ∉ l2)) :=
  ⟨claim_C6.2.1 "app.hex",
   claim_C6.2.2.2 [⟨EXIT_SUCCESS, EXIT_SUCCESS⟩] false EXIT_SUCCESS true
     (by decide)⟩

/-- C7: When the list-devices action runs and the (possibly filtered)
device list is empty, the action returns `ERROR_BOOTLOADER_NOT_FOUND` —
which the orchestrator propagates unchanged as the process exit code — and
the single not-found message it emits carries informational severity, not
error severity. -/
theorem claim_C7 (env : Env) (st st1 : GState) (ev1 : List BEvent)
    (hreq : bootloaderListRequire env {st with bootloaderHandle := none} =
      (st1, ev1, .ok [])) :
    listConnectedBootloaders env st =
      (st1, [⟨.info, .noBootloaderFound st1.desiredSerialNumber⟩],
        BEvent.closeHandle :: ev1, ERROR_BOOTLOADER_NOT_FOUND) ∧
    (mainP EXIT_SUCCESS [⟨EXIT_SUCCESS, ERROR_BOOTLOADER_NOT_FOUND⟩] false
      EXIT_SUCCESS false EXIT_SUCCESS true).1 = ERROR_BOOTLOADER_NOT_FOUND := by
  constructor
  · simp [listConnectedBootloaders, hreq, listBootloadersLoop,
      bootloaderNotFoundInfo]
  · decide

/-- Closed instance of `claim_C7`: zero devices discovered, exit code
`ERROR_BOOTLOADER_NOT_FOUND`, one informational message. -/
theorem claim_C7_witness :
    listConnectedBootloaders {envBase with listCreate := .ok []} {} =
      ((⟨none, some [], none⟩ : GState),
        [⟨.info, .noBootloaderFound none⟩],
        BEvent.closeHandle :: [BEvent.listCreate], ERROR_BOOTLOADER_NOT_FOUND) ∧
    (mainP EXIT_SUCCESS [⟨EXIT_SUCCESS, ERROR_BOOTLOADER_NOT_FOUND⟩] false
      EXIT_SUCCESS false EXIT_SUCCESS true).1 = ERROR_BOOTLOADER_NOT_FOUND :=
  claim_C7 {envBase with listCreate := .ok []} {} ⟨none, some [], none⟩
    [BEvent.listCreate] rfl

/-- C8: Parsing a command line in which `-d` occurs as a flag a second time
(i.e. the serial filter is already set when `-d` is encountered) returns
`ERROR_BAD_ARGS`, as does `-d` with no following token; and when parsing
fails the orchestrator performs no device operation at all — the whole
program trace consists only of the cleanup releases. -/
theorem claim_C8 :
    (∀ st s rest, st.desiredSerialNumber = some s →
      parseArgsFrom ("-d" :: rest) st = .error ERROR_BAD_ARGS) ∧
    (∀ st, parseArgsFrom ["-d"] st = .error ERROR_BAD_ARGS) ∧
    (∀ as wf wc rf rhc rdo,
      (mainP ERROR_BAD_ARGS as wf wc rf rhc rdo).1 = ERROR_BAD_ARGS ∧
      (mainP ERROR_BAD_ARGS as wf wc rf rhc rdo).2 = actionsFree as.length) := by
  refine ⟨?_, ?_, ?_⟩
  · intro st s rest hs
    rcases rest with _ | ⟨t, rest2⟩
    · rw [parseArgsFrom.eq_2]
      simp [hs]
    · rw [parseArgsFrom.eq_3]
      simp [hs]
  · intro st
    rw [parseArgsFrom.eq_2]
    rcases hs : st.desiredSerialNumber with _ | s <;> simp [hs]
  · intro as wf wc rf rhc rdo
    constructor <;> simp [mainP, run, ERROR_BAD_ARGS, EXIT_SUCCESS]

/-- Closed instance of `claim_C8`: the second `-d` of
`-d X -d Y` is reached with the filter already set and parsing fails with
`ERROR_BAD_ARGS`; a trailing `-d` fails too; and with a failed parse the
program trace is cleanup only. -/
theorem claim_C8_witness :
    parseArgsFrom ("-d" :: ["Y"]) ⟨some "X", false, false, []⟩ =
      .error ERROR_BAD_ARGS ∧
    parseArgsFrom ["-d"] {} = .error ERROR_BAD_ARGS ∧
    ((mainP ERROR_BAD_ARGS [] false EXIT_SUCCESS false EXIT_SUCCESS true).1 =
        ERROR_BAD_ARGS ∧
      (mainP ERROR_BAD_ARGS [] false EXIT_SUCCESS false EXIT_SUCCESS true).2 =
        actionsFree 0) :=
  ⟨claim_C8.1 ⟨some "X", false, false, []⟩ "X" ["Y"] rfl,
   claim_C8.2.1 {},
   claim_C8.2.2 [] false EXIT_SUCCESS false EXIT_SUCCESS true⟩

/-- C9: During the list-devices action, failure to open an individual
device or to query its application status does not fail the action: that
device's status string is `"?"` and a warning is printed, every enumerated
device still gets its row, and the action returns `EXIT_SUCCESS` whenever
at least one device was enumerated (and each entry's USB-identity query
succeeds). -/
theorem claim_C9 (env : Env) (st st1 : GState) (ev1 : List BEvent)
    (lst : List Device)
    (hreq : bootloaderListRequire env {st with bootloaderHandle := none} =
      (st1, ev1, .ok lst))
    (hlen : 1 ≤ lst.length)
    (hinfo : ∀ j, j < lst.length → ∃ u, env.listCreateInfo lst j = .ok u) :
    (listConnectedBootloaders env st).2.2.2 = EXIT_SUCCESS ∧
    (∀ j, j < lst.length → ∃ u, env.listCreateInfo lst j = .ok u ∧
      Msg.mk .stdout (.listRow u.serialNumber u.name (getStatus env lst j).1)
        ∈ (listConnectedBootloaders env st).2.1) ∧
    (∀ j, j < lst.length → env.openFromList lst j = .error () →
      (getStatus env lst j).1 = "?" ∧
      Msg.mk .warning .unableToConnect ∈ (listConnectedBootloaders env st).2.1) ∧
    (∀ j h2, j < lst.length → env.openFromList lst j = .ok h2 →
      env.checkApplication h2 = .error () →
      (getStatus env lst j).1 = "?" ∧
      Msg.mk .warning .unableToCheckApplication ∈
        (listConnectedBootloaders env st).2.1) := by
  have hinfo0 : ∀ j, j < lst.length → ∃ u, env.listCreateInfo lst (0 + j) = .ok u := by
    simpa using hinfo
  obtain ⟨hcode, hmem⟩ := listBootloadersLoop_ok env lst lst.length 0 hinfo0
  have hne : ¬(lst.length = 0) := by omega
  have hres : listConnectedBootloaders env st =
      (st1, (listBootloadersLoop env lst 0 lst.length).1,
        BEvent.closeHandle :: ev1, EXIT_SUCCESS) := by
    simp only [listConnectedBootloaders, hreq]
    simp [hcode, hne]
  refine ⟨by rw [hres], ?_, ?_, ?_⟩
  · intro j hj
    obtain ⟨u, hu, hrow, _⟩ := hmem j hj
    simp only [Nat.zero_add] at hu hrow
    exact ⟨u, hu, by rw [hres]; exact hrow⟩
  · intro j hj hopen
    have hgs : getStatus env lst j = ("?", [⟨.warning, .unableToConnect⟩]) := by
      simp [getStatus, hopen]
    obtain ⟨u, hu, hrow, hwarn⟩ := hmem j hj
    simp only [Nat.zero_add] at hwarn
    refine ⟨by rw [hgs], ?_⟩
    rw [hres]
    exact hwarn ⟨.warning, .unableToConnect⟩ (by rw [hgs]; simp)
  · intro j h2 hj hopen hchk
    have hgs : getStatus env lst j =
        ("?", [⟨.warning, .unableToCheckApplication⟩]) := by
      simp [getStatus, hopen, hchk]
    obtain ⟨u, hu, hrow, hwarn⟩ := hmem j hj
    simp only [Nat.zero_add] at hwarn
    refine ⟨by rw [hgs], ?_⟩
    rw [hres]
    exact hwarn ⟨.warning, .unableToCheckApplication⟩ (by rw [hgs]; simp)

/-- Closed instance of `claim_C9`: two devices, the second unopenable; the
action still exits 0 and shows `"?"` with a warning for the second. -/
theorem claim_C9_witness :
    (listConnectedBootloaders envTwoHalf {}).2.2.2 = EXIT_SUCCESS ∧
    ((getStatus envTwoHalf [devA, devB] 1).1 = "?" ∧
      Msg.mk .warning .unableToConnect ∈
        (listConnectedBootloaders envTwoHalf {}).2.1) :=
  ⟨(claim_C9 envTwoHalf {} ⟨none, some [devA, devB], none⟩ [.listCreate]
      [devA, devB] rfl (by decide)
      (fun j hj => by
        have hj2 : j < 2 := hj
        interval_cases j <;> exact ⟨_, rfl⟩)).1,
   (claim_C9 envTwoHalf {} ⟨none, some [devA, devB], none⟩ [.listCreate]
      [devA, devB] rfl (by decide)
      (fun j hj => by
        have hj2 : j < 2 := hj
        interval_cases j <;> exact ⟨_, rfl⟩)).2.2.1 1
     (by decide) rfl⟩

/-- C10: When `ploaderListCreate` fails, its raw `PLOADER_RESULT` value is
returned unchanged by `bootloaderListRequire`, propagated unchanged by
`bootloaderHandleRequire` and by the orchestrator to the process exit
code; hence some discovery failures exit with a code that is none of the
three documented codes and not 0. -/
theorem claim_C10 :
    (∀ env st r, st.bootloaderList = none → env.listCreate = .error r →
      bootloaderListRequire env st = (st, [.listCreate], .error r)) ∧
    (∀ env st r, st.bootloaderList = none → st.bootloaderHandle = none →
      env.listCreate = .error r →
      (bootloaderHandleRequire env st).2.2.2 = r) ∧
    (∀ r ec rest wf rf rhc rdo, r ≠ EXIT_SUCCESS →
      (mainP EXIT_SUCCESS (⟨r, ec⟩ :: rest) wf EXIT_SUCCESS rf rhc rdo).1 = r) ∧
    (∃ r, r ≠ EXIT_SUCCESS ∧ r ≠ ERROR_BAD_ARGS ∧ r ≠ ERROR_OPERATION_FAILED ∧
      r ≠ ERROR_BOOTLOADER_NOT_FOUND ∧
      (mainP EXIT_SUCCESS [⟨r, EXIT_SUCCESS⟩] false EXIT_SUCCESS false
        EXIT_SUCCESS true).1 = r) := by
  refine ⟨?_, ?_, ?_, 4, by decide, by decide, by decide, by decide, by decide⟩
  · intro env st r h1 h2
    simp [bootloaderListRequire, h1, h2]
  · intro env st r h1 h2 h3
    simp [bootloaderHandleRequire, bootloaderListRequire, h1, h2, h3]
  · intro r ec rest wf rf rhc rdo hr
    have hp : (actionsPrepareFrom (⟨r, ec⟩ :: rest) 0).1 = r := by
      simp [actionsPrepareFrom, hr]
    simp [mainP, run, actionsPrepare, hp, hr]

/-- Closed instance of `claim_C10`: raw result 4 flows unchanged from
`ploaderListCreate` to the process exit code, and 4 is none of the
documented codes. -/
theorem claim_C10_witness :
    bootloaderListRequire {envBase with listCreate := .error 4} {} =
      ({}, [.listCreate], .error 4) ∧
    (bootloaderHandleRequire {envBase with listCreate := .error 4} {}).2.2.2 = 4 ∧
    (mainP EXIT_SUCCESS [⟨4, EXIT_SUCCESS⟩] false EXIT_SUCCESS false
      EXIT_SUCCESS true).1 = 4 :=
  ⟨claim_C10.1 {envBase with listCreate := .error 4} {} 4 rfl rfl,
   claim_C10.2.1 {envBase with listCreate := .error 4} {} 4 rfl rfl rfl,
   claim_C10.2.2.1 4 EXIT_SUCCESS [] false false EXIT_SUCCESS true (by decide)⟩
